import Mathlib

/-!
Verification of the fine-grained reactive state engine of
react-meta-framework, a shallow embedding of
`src/state/reactive-state.ts`.

Modelling conventions:
* All reactive values are specialised to `Int` (every spec scenario uses
  integers).  Compute functions of derived nodes are Lean functions
  `Int → Int`; a separate model with `Int → Except JsError Int` covers
  throwing compute functions.
* The closure state captured by `createReactiveState` (lines 19–80) is the
  record `CellNode`: `currentValue`, the subscriber set (modelled as one
  optional logging subscriber `v => log.push(v)`, the shape used by the
  spec's scenarios, plus its log), and `derivedStates` in insertion order.
* The closure state captured by `createDerivedState` (lines 85–157) is the
  record `DNode`: `fn`, `cachedValue` (`Option Int`; `none` is TS
  `undefined` before the first compute), `isDirty`, and an instrumentation
  counter `runs` counting invocations of `fn` (not program state).
* The module-level `dependencyGraph` (line 13) is written by `value()`
  (lines 26–33) but never read by any code in the repository, so it has no
  observable behaviour and is omitted.  `currentComputation` (line 12) is
  likewise never consulted by `setValue`; it is modelled explicitly in the
  dedicated worlds `W6`/`W7` where a claim is about it.
* Object identity/aliasing: a derived node registered in a cell's
  `derivedStates` is referred to by its index in the list; reading it
  (`derivedValue`) threads the possibly-mutated cell state.
-/

namespace ReactMeta

/-- A thrown JS `Error`, identified by its message. -/
inductive JsError where
  | message : String → JsError
deriving Repr, DecidableEq

/-- The argument of `setValue` (line 37): a plain value or an updater
function `prev => next`. -/
inductive Setter where
  | val : Int → Setter
  | fn : (Int → Int) → Setter

/-- Lines 38–41: resolve the setter to a concrete next value. -/
def Setter.resolve : Setter → Int → Int
  | .val v, _ => v
  | .fn f, prev => f prev

/-- Closure state of one derived node created by `createDerivedState`
(lines 85–157), with a pure compute function.  `runs` counts invocations
of `fn`. -/
structure DNode where
  fn : Int → Int
  cachedValue : Option Int
  isDirty : Bool
  runs : Nat

/-- Lines 93–112 (`compute`), specialised to a non-throwing `fn`.  The
argument `depValue` is the value `dependency.value()` returns at the time
of the call.  Returns the updated node and the value `compute` returns. -/
def DNode.compute (d : DNode) (depValue : Int) : DNode × Option Int :=
  if d.isDirty then
    let v := d.fn depValue
    ({ d with cachedValue := some v, isDirty := false, runs := d.runs + 1 }, some v)
  else
    (d, d.cachedValue)

/-- Lines 114–116: `value()` of a derived node just calls `compute`. -/
def DNode.value (d : DNode) (depValue : Int) : DNode × Option Int :=
  d.compute depValue

/-- Lines 137–145 (`update`): mark dirty, recompute eagerly, and report
whether the new value differs from the old one (in which case the code
notifies the derived node's own subscribers, line 142–144). -/
def DNode.update (d : DNode) (depValue : Int) : DNode × Bool :=
  let oldValue := d.cachedValue
  let (d2, newValue) := DNode.compute { d with isDirty := true } depValue
  (d2, newValue ≠ oldValue)

/-- Lines 85–157 as a whole: `createDerivedState` builds the node and runs
the initial computation (`compute()` on line 148) before returning. -/
def createDerivedState (fn : Int → Int) (depValue : Int) : DNode :=
  (DNode.compute { fn := fn, cachedValue := none, isDirty := true, runs := 0 } depValue).1

/-- Lines 118–120: `setValue` on a derived state always throws. -/
def DNode.setValueResult : Except JsError Unit :=
  .error (.message "Cannot set value on derived state")

/-- Closure state of one cell created by `createReactiveState`
(lines 19–80).  `logger`/`subLog` model one subscriber of the shape
`v => log.push(v)` together with its log; `derived` is the
`derivedStates` set in insertion order. -/
structure CellNode where
  currentValue : Int
  logger : Bool
  subLog : List Int
  derived : List DNode

/-- Lines 19–23 and 74–79: a fresh cell. -/
def createReactiveState (initialValue : Int) : CellNode :=
  { currentValue := initialValue, logger := false, subLog := [], derived := [] }

/-- Lines 58–61: attach the logging subscriber. -/
def CellNode.subscribe (c : CellNode) : CellNode :=
  { c with logger := true }

/-- Lines 58–61: the returned unsubscribe thunk removes the callback. -/
def CellNode.unsubscribe (c : CellNode) : CellNode :=
  { c with logger := false }

/-- Lines 37–56 (`setValue`): resolve the setter; if the next value is
(strictly) unequal to the current one, store it, notify subscribers with
the new value (line 47), then call `update()` on every registered derived
state (lines 50–54); otherwise do nothing. -/
def CellNode.setValueS (c : CellNode) (s : Setter) : CellNode :=
  let nextValue := s.resolve c.currentValue
  if nextValue ≠ c.currentValue then
    let c1 := { c with currentValue := nextValue }
    let c2 :=
      if c1.logger then { c1 with subLog := c1.subLog ++ [nextValue] } else c1
    { c2 with derived := c2.derived.map (fun d => (d.update nextValue).1) }
  else
    c

/-- `setValue` with a plain (non-function) argument. -/
def CellNode.setValue (c : CellNode) (v : Int) : CellNode :=
  c.setValueS (.val v)

/-- Lines 24–35: `value()` of a cell returns `currentValue`.  (The
dependency-graph registration on lines 26–33 writes a map no code ever
reads and is omitted.) -/
def CellNode.value (c : CellNode) : Int :=
  c.currentValue

/-- Lines 63–72 (`derive` of a cell): create a derived state over this
cell's current value and add it to `derivedStates`.  The caller's handle
to the new node is its index in `derived`. -/
def CellNode.deriveIdx (c : CellNode) (f : Int → Int) : CellNode × Nat :=
  let d := createDerivedState f c.currentValue
  ({ c with derived := c.derived ++ [d] }, c.derived.length)

/-- Reading registered derived node `i` (its `value()`, lines 114–116):
runs `compute`, which reads the cell's current value, and threads the
updated node back into the cell. -/
def CellNode.derivedValue (c : CellNode) (i : Nat) : CellNode × Option Int :=
  match c.derived[i]? with
  | some d =>
    let (d2, v) := d.compute c.currentValue
    ({ c with derived := c.derived.set i d2 }, v)
  | none => (c, none)

/-- Lines 127–135 (`derive` of a derived state): builds a new derived
node whose dependency is the derived node `i` of cell `c` (the initial
compute, line 148, reads that node via `dependency.value()`), and
registers it nowhere: `createDerivedState` adds it to no `derivedStates`
set and to no subscriber set.  The `getD 0` default is unreachable when
`i` is a valid index (the parent node always has a value there). -/
def CellNode.deriveFromDerived (c : CellNode) (i : Nat) (g : Int → Int) :
    CellNode × DNode :=
  let (c1, v) := c.derivedValue i
  (c1, createDerivedState g (v.getD 0))

/-- `value()` of a second-level derived node (lines 114–116 and 93–112):
if it is dirty, it re-reads its parent (derived node `i` of `c`) and
recomputes; otherwise it returns its cached value without touching the
parent. -/
def CellNode.derivedOfDerivedValue (c : CellNode) (i : Nat) (d2 : DNode) :
    CellNode × DNode × Option Int :=
  if d2.isDirty then
    let (c1, v) := c.derivedValue i
    let u := d2.fn (v.getD 0)
    (c1, { d2 with cachedValue := some u, isDirty := false, runs := d2.runs + 1 }, some u)
  else
    (c, d2, d2.cachedValue)

/-- Closure state of the node built by `createComputed` (lines 162–166):
`dummy.derive(() => fn())` where `dummy = createReactiveState(null)`.
Unlike `DNode`, its compute function is the effectful closure
`() => b.value() + c.value()` of the diamond scenario, so it is hard-coded
in `DiamondW.dCompute` rather than stored as a field. -/
structure CNode where
  cachedValue : Option Int
  isDirty : Bool
  runs : Nat

/-- The diamond scenario world: cell `a` with registered derived nodes
`b` (index 0) and `c` (index 1), the dummy cell `createComputed` derives
from (value `null`, modelled `none`, never written — no reference to it
escapes `createComputed`, so `d.update` is never invoked), and the
computed node `d`. -/
structure DiamondW where
  a : CellNode
  dummyValue : Option Int
  d : CNode

/-- `compute` of `d` (lines 93–112) with compute function
`() => b.value() + c.value()`: reads derived node 0 then derived node 1
of cell `a` (each read may recompute that node), caches the sum and
clears the dirty flag.  The `getD 0` defaults are unreachable (both
nodes always hold a value). -/
def DiamondW.dCompute (w : DiamondW) : DiamondW × Option Int :=
  if w.d.isDirty then
    let (a1, bv) := w.a.derivedValue 0
    let (a2, cv) := a1.derivedValue 1
    let v := bv.getD 0 + cv.getD 0
    ({ w with a := a2,
              d := { cachedValue := some v, isDirty := false, runs := w.d.runs + 1 } },
     some v)
  else
    (w, w.d.cachedValue)

/-- Diamond scenario, after construction:
`a = createReactiveState 1`, `b = a.derive(x => x+1)`,
`c = a.derive(x => x*10)`, `d = createComputed(() => b.value() + c.value())`
(whose creation runs the initial compute, line 148). -/
def diamondInit : DiamondW :=
  (DiamondW.mk
    (((createReactiveState 1).deriveIdx (fun x => x + 1)).1.deriveIdx
      (fun x => x * 10)).1
    none
    { cachedValue := none, isDirty := true, runs := 0 }).dCompute.1

/-- Diamond scenario after `a.setValue 2`: the write reaches `a`'s
subscribers and registered derived states (`b`, `c`) only; `d` is
registered in the dummy cell's `derivedStates`, and the dummy is never
written. -/
def diamondAfterWrite : DiamondW :=
  { diamondInit with a := diamondInit.a.setValue 2 }

/-- Reading `d` after the write. -/
def diamondRead : DiamondW × Option Int := diamondAfterWrite.dCompute

/-- World for the effect scenarios: cell `a`, the flag recording that the
effect body sits in the dummy cell's subscriber set (lines 176–178), the
log the effect body appends to, and an instrumentation counter of effect
body invocations. -/
structure EffectWorld where
  a : CellNode
  effSubscribed : Bool
  log : List Int
  effRuns : Nat

/-- The effect body of the scenarios: `() => log.push(a.value())`. -/
def EffectWorld.runEffectFn (w : EffectWorld) : EffectWorld :=
  { w with log := w.log ++ [w.a.currentValue], effRuns := w.effRuns + 1 }

/-- Lines 171–184 (`createReactiveEffect`): create a dummy cell
(`createReactiveState null`), subscribe the effect body to that dummy —
not to any cell the body reads — and run the body once.  No reference to
the dummy escapes, so nothing ever writes it and its subscribers
(including the effect body) are never notified again. -/
def EffectWorld.createEffect (w : EffectWorld) : EffectWorld :=
  EffectWorld.runEffectFn { w with effSubscribed := true }

/-- The dispose function returned by `createReactiveEffect` (line 183 via
lines 58–61): removes the effect body from the dummy's subscribers. -/
def EffectWorld.dispose (w : EffectWorld) : EffectWorld :=
  { w with effSubscribed := false }

/-- Writing cell `a` (lines 37–56): notifies `a`'s own subscribers and
registered derived states only; the effect body is not among them. -/
def EffectWorld.writeA (w : EffectWorld) (v : Int) : EffectWorld :=
  { w with a := w.a.setValue v }

/-- Lines 189–193 (`batch`): runs the updates sequentially, each with
immediate full propagation; nothing is deferred or coalesced (the body's
own comment says real batching is not implemented). -/
def EffectWorld.batch (w : EffectWorld) (updates : List (EffectWorld → EffectWorld)) :
    EffectWorld :=
  updates.foldl (fun acc u => u acc) w

/-- C3 scenario: fresh world with `a = createReactiveState 0`. -/
def c3W0 : EffectWorld :=
  { a := createReactiveState 0, effSubscribed := false, log := [], effRuns := 0 }

/-- C3 scenario after `effect(() => log.push(a.value()))`. -/
def c3W1 : EffectWorld := c3W0.createEffect

/-- C3 scenario after `batch([() => a.setValue 1, () => a.setValue 2])`. -/
def c3W2 : EffectWorld :=
  c3W1.batch [fun w => w.writeA 1, fun w => w.writeA 2]

/-- C5 scenario: effect created over `a = createReactiveState 0`, then
`a.setValue 5`. -/
def c5W1 : EffectWorld :=
  EffectWorld.createEffect
    { a := createReactiveState 0, effSubscribed := false, log := [], effRuns := 0 }

/-- C5 scenario after the write. -/
def c5W2 : EffectWorld := c5W1.writeA 5

/-- World for the write-during-compute scenario: cell `a`, cell `bcell`
(with a logging subscriber recording each notification), the global
`currentComputation` slot (line 12; `true` when some computation is
active), and the state of `d = a.derive(x => { bcell.setValue(42); return x + 1 })`. -/
structure W6 where
  aVal : Int
  bVal : Int
  bLog : List Int
  currentComputation : Bool
  dCache : Option Int
  dDirty : Bool
deriving Repr, DecidableEq

/-- `setValue` of `bcell` (lines 37–56) in world `W6`.  The body never
consults `currentComputation`: there is no write-during-compute check
anywhere in the function, so the definition takes no account of the
flag. -/
def W6.setValueB (w : W6) (v : Int) : W6 :=
  if v ≠ w.bVal then { w with bVal := v, bLog := w.bLog ++ [v] } else w

/-- `compute` (lines 93–112) of
`d = a.derive(x => { bcell.setValue(42); return x + 1 })`: saves and sets
`currentComputation` (lines 95–102), runs the compute function — whose
write to `bcell` goes through `setValueB` while the slot is active —
caches the result and clears the dirty flag (lines 105–106), and restores
`currentComputation` (line 108). -/
def W6.computeD (w : W6) : W6 × Option Int :=
  if w.dDirty then
    let w1 := { w with currentComputation := true }
    let w2 := w1.setValueB 42
    let r := w2.aVal + 1
    ({ w2 with currentComputation := w.currentComputation,
               dCache := some r, dDirty := false },
     some r)
  else
    (w, w.dCache)

/-- World for the cycle scenario: cell `a` and the state of the
self-referential derivation `d = a.derive(x => x + d.value())`. -/
structure W7 where
  aVal : Int
  dCache : Option Int
  dDirty : Bool
deriving Repr, DecidableEq

/-- Fuel-indexed `compute` (lines 93–112) of the self-referential
derivation `d = a.derive(x => x + d.value())`: when dirty, the compute
function receives the cell's value and then re-enters `d.value()`
(lines 114–116), which calls `compute` again; the dirty flag is cleared
only after the compute function returns (line 106), so the inner call
still sees the node dirty.  `none` means the call has not completed
within `fuel` nested invocations.  The source's `compute` contains no
throw statement and the repository defines no `CyclicDependencyError`,
so a completed call could only carry an ordinary value. -/
def W7.computeD : Nat → W7 → Option (W7 × Option Int)
  | 0, _ => none
  | fuel + 1, w =>
    if w.dDirty then
      match W7.computeD fuel w with
      | none => none
      | some (w1, inner) =>
        let v := w.aVal + inner.getD 0
        some ({ w1 with dCache := some v, dDirty := false }, some v)
    else
      some (w, w.dCache)

/-- Closure state of a derived node whose compute function may throw
(lines 85–157 with a fallible `fn`).  `runs` counts invocations of
`fn`. -/
structure ENode where
  fn : Int → Except JsError Int
  cachedValue : Option Int
  isDirty : Bool
  runs : Nat

/-- Lines 93–112 (`compute`) with a fallible compute function: the `try`
block assigns `currentValue` and clears `isDirty` only if `fn` returns
(lines 105–106); if `fn` throws, both are left untouched and the error
propagates past the `finally` (line 107–109) to the caller. -/
def ENode.compute (e : ENode) (depValue : Int) : ENode × Except JsError (Option Int) :=
  if e.isDirty then
    match e.fn depValue with
    | .ok v =>
      ({ e with cachedValue := some v, isDirty := false, runs := e.runs + 1 }, .ok (some v))
    | .error err => ({ e with runs := e.runs + 1 }, .error err)
  else
    (e, .ok e.cachedValue)

/-- A cell together with its registered derived nodes, with fallible
compute functions. -/
structure ECell where
  currentValue : Int
  derived : List ENode

/-- Reading registered derived node `i` (`value()`, lines 114–116): runs
`compute` and threads the updated node back; the error, if any, is
re-thrown to this caller. -/
def ECell.derivedValue (c : ECell) (i : Nat) : ECell × Except JsError (Option Int) :=
  match c.derived[i]? with
  | some e =>
    let (e2, r) := e.compute c.currentValue
    ({ c with derived := c.derived.set i e2 }, r)
  | none => (c, .ok none)

/-- C8 witness scenario: a dirty derived node whose compute function
throws, holding a previous cached value. -/
def c8Throwing : ENode :=
  { fn := fun _ => .error (.message "boom"), cachedValue := some 10,
    isDirty := true, runs := 1 }

/-- C8 witness scenario: a clean sibling node. -/
def c8Sibling : ENode :=
  { fn := fun x => .ok x, cachedValue := some 5, isDirty := false, runs := 1 }

/-- C8 witness scenario: the cell holding both nodes. -/
def c8Cell : ECell :=
  { currentValue := 5, derived := [c8Throwing, c8Sibling] }

/-- C1: basic propagation scenario, step by step. -/
def c1A : CellNode := createReactiveState 2

def c1Derived : CellNode × Nat := c1A.deriveIdx (fun x => x * 2)

def c1FirstRead : CellNode × Option Int := c1Derived.1.derivedValue c1Derived.2

def c1AfterWrite : CellNode := c1FirstRead.1.setValue 3

def c1SecondRead : CellNode × Option Int := c1AfterWrite.derivedValue c1Derived.2

/-- C9 witness scenario: a cell at `2` with a logging subscriber and one
registered derived node. -/
def c9Cell : CellNode :=
  (((createReactiveState 2).subscribe).deriveIdx (fun x => x * 2)).1

/-- C4 scenario: a cell at `2` with one derived node (never read). -/
def c4Cell : CellNode :=
  ((createReactiveState 2).deriveIdx (fun x => x * 2)).1

/-- C4 scenario after `a.setValue(3)`, still with no read of the derived
node. -/
def c4After : CellNode := c4Cell.setValue 3

/-- C10 scenario: `a = createReactiveState v0`, `d1 = a.derive f`. -/
def c10Cell (v0 : Int) (f : Int → Int) : CellNode :=
  ((createReactiveState v0).deriveIdx f).1

/-- C10 scenario: `d2 = d1.derive g` (the second-level derived node the
caller holds on to; index of `d1` in the cell is `0`). -/
def c10D2 (v0 : Int) (f g : Int → Int) : DNode :=
  ((c10Cell v0 f).deriveFromDerived 0 g).2

/-- C10 scenario: the cell after `d2`'s creation and `a.setValue v`. -/
def c10After (v0 v : Int) (f g : Int → Int) : CellNode :=
  (((c10Cell v0 f).deriveFromDerived 0 g).1).setValue v

/-- C1: Basic propagation.  For `a = createReactiveState(2)` and
`b = a.derive(x => x*2)`, `b.value()` returns `4`; after `a.setValue(3)`,
`a.value()` returns `3` and `b.value()` returns `6`; moreover for every
cell a `setValue` with a plain value leaves `currentValue` equal to that
argument (value equals the argument of the last successful write). -/
theorem c1_basic_propagation :
    c1FirstRead.2 = some 4 ∧
    c1AfterWrite.value = 3 ∧
    c1SecondRead.2 = some 6 ∧
    ∀ (c : CellNode) (v : Int), (c.setValue v).value = v := by
  refine ⟨rfl, rfl, rfl, ?_⟩
  intro c v
  by_cases h : v = c.currentValue
  · simp [CellNode.setValue, CellNode.setValueS, Setter.resolve, CellNode.value, h]
  · by_cases hl : c.logger <;>
      simp [CellNode.setValue, CellNode.setValueS, Setter.resolve, CellNode.value, h, hl]

/-- Helper: `update` (lines 137–145) recomputes eagerly — marking dirty
and the recompute happen inside the same call. -/
theorem DNode.update_fst (d : DNode) (v : Int) :
    (d.update v).1 =
      { fn := d.fn, cachedValue := some (d.fn v), isDirty := false, runs := d.runs + 1 } :=
  rfl

/-- C9: writing a value equal (by strict equality, the only comparison
`setValue` uses, line 43) to the current one is a complete no-op: the
whole cell state — stored value, subscriber log, and every registered
derived node — is unchanged, so no subscriber callback runs and no
derived `update` is triggered. -/
theorem c9_equal_write_noop (c : CellNode) (v : Int) (h : v = c.currentValue) :
    c.setValue v = c := by
  simp [CellNode.setValue, CellNode.setValueS, Setter.resolve, h]

/-- C9 witness: on a concrete cell at `2` with a logging subscriber and a
derived node, `setValue 2` changes nothing. -/
theorem c9_equal_write_noop_witness :
    (2 : Int) = c9Cell.currentValue ∧ c9Cell.setValue 2 = c9Cell :=
  ⟨rfl, c9_equal_write_noop c9Cell 2 rfl⟩

/-- C4 counterexample: laziness fails on the code.  The compute function
of `createDerivedState (x => x*2) 2` has already run once at creation,
before any read (the claim says it first runs on the first read); and
after `a.setValue 3` the registered derived node's compute function has
run twice — the second invocation happened during the write itself (the
claim says a write only marks the node dirty and never invokes compute). -/
theorem c4_lazy_counterexample :
    (createDerivedState (fun x => x * 2) 2).runs = 1 ∧
    (c4After.derived.map DNode.runs) = [2] ∧
    (c4After.derived.map DNode.isDirty) = [false] :=
  ⟨rfl, rfl, rfl⟩

/-- C4 amended: derived computation is eager, not lazy.  `createDerivedState`
invokes the compute function once at creation (line 148), caching the
result with the dirty flag cleared; and a write that changes a cell's
value eagerly recomputes every registered derived node during the write
(`update`, lines 137–145, sets `dirty` and immediately calls `compute`),
so after the write each derived node is clean, caches `fn` of the new
value, and its run count has grown by one. -/
theorem c4_eager_compute (f : Int → Int) (v0 : Int) (c : CellNode) (v : Int)
    (h : v ≠ c.currentValue) :
    createDerivedState f v0 =
      { fn := f, cachedValue := some (f v0), isDirty := false, runs := 1 } ∧
    (c.setValue v).derived =
      c.derived.map (fun d =>
        { fn := d.fn, cachedValue := some (d.fn v), isDirty := false, runs := d.runs + 1 }) := by
  refine ⟨rfl, ?_⟩
  by_cases hl : c.logger <;>
    simp [CellNode.setValue, CellNode.setValueS, Setter.resolve, h, hl, DNode.update_fst]

/-- C4 amended, witness: the concrete cell at `2` with derived `x*2`,
written with `3`. -/
theorem c4_eager_compute_witness :
    (3 : Int) ≠ c4Cell.currentValue ∧
    createDerivedState (fun x => x * 2) 2 =
      { fn := fun x => x * 2, cachedValue := some 4, isDirty := false, runs := 1 } ∧
    (c4Cell.setValue 3).derived =
      c4Cell.derived.map (fun d =>
        { fn := d.fn, cachedValue := some (d.fn 3), isDirty := false, runs := d.runs + 1 }) := by
  refine ⟨by decide, ?_, (c4_eager_compute (fun x => x * 2) 2 c4Cell 3 (by decide)).2⟩
  exact (c4_eager_compute (fun x => x * 2) 2 c4Cell 3 (by decide)).1

/-- C10: second-level derivations are permanently stale.  For
`a = createReactiveState v0`, `d1 = a.derive f`, `d2 = d1.derive g`, any
write of `v ≠ v0` to `a` updates `a` and `d1` (`a.value() = v`,
`d1.value() = f v`) but leaves `d2` at the value computed at its
creation: `d2.value()` still returns `g (f v0)`, because `derive` on a
derived state registers the child in no dependents or subscriber set and
`update` notifies only subscribe callbacks. -/
theorem c10_second_level_stale (v0 v : Int) (f g : Int → Int) (h : v ≠ v0) :
    (c10After v0 v f g).value = v ∧
    ((c10After v0 v f g).derivedValue 0).2 = some (f v) ∧
    ((c10After v0 v f g).derivedOfDerivedValue 0 (c10D2 v0 f g)).2.2 = some (g (f v0)) := by
  refine ⟨?_, ?_, ?_⟩ <;>
    simp [c10After, c10Cell, c10D2, CellNode.deriveIdx, CellNode.deriveFromDerived,
      CellNode.derivedValue, CellNode.derivedOfDerivedValue, createDerivedState,
      createReactiveState, CellNode.setValue, CellNode.setValueS, Setter.resolve,
      DNode.compute, DNode.update, CellNode.value, h]

/-- C2: the diamond is NOT glitch-free in the code — evaluating the code
at the claim's input.  With `a=1`, `b=a+1`, `c=a*10`,
`d=createComputed(() => b.value()+c.value())`: `d`'s compute function runs
once at creation (caching `12`); writing `2` to `a` updates `b` (to `3`)
and `c` (to `20`) but runs `d`'s compute function zero times (its run
count stays `1`), because `createComputed` derives `d` from a dummy cell
that is never written; reading `d` afterwards returns the stale `12`,
not `23`. -/
theorem c2_diamond_not_glitch_free :
    diamondInit.d.runs = 1 ∧
    diamondRead.1.d.runs = 1 ∧
    diamondRead.2 = some 12 ∧
    (diamondAfterWrite.a.derivedValue 0).2 = some 3 ∧
    (diamondAfterWrite.a.derivedValue 1).2 = some 20 := by
  decide

/-- C3: batching does not coalesce — evaluating the code at the claim's
input.  With `a = createReactiveState 0` and
`effect(() => log.push(a.value()))`, running
`batch([() => a.setValue 1, () => a.setValue 2])` leaves `log = [0]`
(the single creation-time run; the effect body never re-runs because it
is subscribed to a dummy cell), not the claimed `[2]`; and a subscriber
attached directly to `a` is notified once per write with each
intermediate value (`[1, 2]`), showing each write propagates immediately
with no single final-value settle pass. -/
theorem c3_batch_not_coalescing :
    c3W2.log = [0] ∧
    c3W2.effRuns = 1 ∧
    c3W2.a.currentValue = 2 ∧
    ((((createReactiveState 0).subscribe).setValue 1).setValue 2).subLog = [1, 2] := by
  decide

/-- C5: an effect runs its body exactly once, at creation, and is never
re-invoked — evaluating the code at the claim's input.  With
`a = createReactiveState 0` and `createReactiveEffect(() => log.push(a.value()))`,
the body runs once at creation (`log = [0]`); after `a.setValue 5` the
cell holds `5` but the body has still run only once (`log` still `[0]`),
because the body is subscribed to a dummy cell that is never written.
The returned dispose function does remove the body from the dummy's
subscribers. -/
theorem c5_effect_never_reruns :
    c5W1.effRuns = 1 ∧ c5W1.log = [0] ∧
    c5W2.a.currentValue = 5 ∧
    c5W2.effRuns = 1 ∧ c5W2.log = [0] ∧
    c5W2.dispose.effSubscribed = false := by
  decide

/-- C10 witness: `v0 = 5`, `f = (+1)`, `g = (*2)`, write `7`: the cell
reads `7`, `d1` reads `8`, but `d2` still reads `12 = (5+1)*2`. -/
theorem c10_second_level_stale_witness :
    (7 : Int) ≠ (5 : Int) ∧
    (c10After 5 7 (fun x => x + 1) (fun x => x * 2)).value = 7 ∧
    ((c10After 5 7 (fun x => x + 1) (fun x => x * 2)).derivedValue 0).2 = some 8 ∧
    ((c10After 5 7 (fun x => x + 1) (fun x => x * 2)).derivedOfDerivedValue 0
        (c10D2 5 (fun x => x + 1) (fun x => x * 2))).2.2 = some 12 := by
  have h := c10_second_level_stale 5 7 (fun x => x + 1) (fun x => x * 2) (by decide)
  exact ⟨by decide, h.1, h.2.1, h.2.2⟩

/-- C6 counterexample: a write during an active computation is applied,
not rejected.  For `a = 1`, `bcell = 0` and
`d = a.derive(x => { bcell.setValue(42); return x + 1 })`, running `d`'s
compute stores `42` in `bcell` and notifies its subscriber while the
computation context is active, and the compute completes normally —
no `WriteDuringComputeError` (no error at all) is raised. -/
theorem c6_write_during_compute_counterexample :
    W6.computeD ⟨1, 0, [], false, none, true⟩ =
      (⟨1, 42, [42], false, some 2, false⟩, some 2) := by
  decide

/-- C6 amended: `setValue` never consults the computation context, so a
write to a cell performed while a derived node's compute function is
mid-evaluation is applied normally — the value is stored and the cell's
subscribers are notified — and the computation completes with its
result; the only write rejection in the code is `setValue` on a derived
state itself, which always throws `"Cannot set value on derived state"`
(there is no `WriteDuringComputeError`). -/
theorem c6_write_during_compute_applied (w : W6) (h1 : w.dDirty = true)
    (h2 : w.bVal ≠ 42) :
    w.computeD =
      ({ w with bVal := 42, bLog := w.bLog ++ [42],
                dCache := some (w.aVal + 1), dDirty := false },
       some (w.aVal + 1)) ∧
    DNode.setValueResult = .error (.message "Cannot set value on derived state") := by
  refine ⟨?_, rfl⟩
  simp [W6.computeD, W6.setValueB, h1, h2, Ne.symm h2]

/-- C6 amended, witness: the concrete world `a = 3`, `bcell = 0`. -/
theorem c6_write_during_compute_applied_witness :
    (⟨3, 0, [], false, none, true⟩ : W6).dDirty = true ∧
    (⟨3, 0, [], false, none, true⟩ : W6).bVal ≠ 42 ∧
    W6.computeD ⟨3, 0, [], false, none, true⟩ =
      (⟨3, 42, [42], false, some 4, false⟩, some 4) := by
  refine ⟨rfl, by decide, ?_⟩
  exact (c6_write_during_compute_applied ⟨3, 0, [], false, none, true⟩ rfl (by decide)).1

/-- Helper: a dirty self-referential derivation never finishes computing,
whatever the fuel: the re-entrant `d.value()` always finds the node still
dirty and recurses. -/
theorem W7.computeD_dirty_none (fuel : Nat) :
    ∀ w : W7, w.dDirty = true → W7.computeD fuel w = none := by
  induction fuel with
  | zero => intro w _; rfl
  | succ n ih => intro w h; simp [W7.computeD, h, ih w h]

/-- C7 counterexample: the recomputation of the self-referential
derivation `d = a.derive(x => x + d.value())` over `a = 1` does not fail
with `CyclicDependencyError` — it simply never completes: even with a
budget of 1000 nested compute invocations it has produced no outcome at
all (the code loops until the host stack is exhausted; no
`CyclicDependencyError` exists in the repository). -/
theorem c7_cycle_counterexample :
    W7.computeD 1000 ⟨1, none, true⟩ = none :=
  W7.computeD_dirty_none 1000 ⟨1, none, true⟩ rfl

/-- C7 amended: the code has no cycle detection.  A derivation that
transitively reads itself recurses without terminating: for every fuel
bound, the fuel-indexed compute of the self-referential derivation
returns `none` (no value, and in particular no `CyclicDependencyError`,
which the repository never defines or throws).  Because the call never
returns, the cached value and dirty flag are never updated by it. -/
theorem c7_no_cycle_detection (fuel : Nat) (w : W7) (h : w.dDirty = true) :
    W7.computeD fuel w = none :=
  W7.computeD_dirty_none fuel w h

/-- C7 amended, witness: fuel 50 on the world `a = 2` with a stale cached
`9`. -/
theorem c7_no_cycle_detection_witness :
    (⟨2, some 9, true⟩ : W7).dDirty = true ∧
    W7.computeD 50 ⟨2, some 9, true⟩ = none :=
  ⟨rfl, c7_no_cycle_detection 50 ⟨2, some 9, true⟩ rfl⟩

/-- C8: exception atomicity of recomputation.  If a dirty derived node's
compute function throws, reading it re-throws the same error to the
caller, leaves the node's cached value and dirty flag untouched (only
the invocation counter grew), leaves the cell's value untouched, and
leaves every sibling node exactly as it was. -/
theorem c8_exception_atomicity (c : ECell) (i : Nat) (e : ENode) (err : JsError)
    (h1 : c.derived[i]? = some e) (h2 : e.isDirty = true)
    (h3 : e.fn c.currentValue = .error err) :
    (c.derivedValue i).2 = .error err ∧
    (c.derivedValue i).1.derived[i]? = some { e with runs := e.runs + 1 } ∧
    (c.derivedValue i).1.currentValue = c.currentValue ∧
    ∀ j, j ≠ i → (c.derivedValue i).1.derived[j]? = c.derived[j]? := by
  have hlt : i < c.derived.length := by
    by_contra hh
    push_neg at hh
    rw [List.getElem?_eq_none hh] at h1
    exact Option.noConfusion h1
  constructor
  · simp [ECell.derivedValue, h1, ENode.compute, h2, h3]
  constructor
  · simp only [ECell.derivedValue, h1, ENode.compute, h2, h3, if_true]
    exact List.getElem?_set_eq_of_lt _ hlt
  constructor
  · simp [ECell.derivedValue, h1, ENode.compute, h2, h3]
  · intro j hj
    simp only [ECell.derivedValue, h1, ENode.compute, h2, h3, if_true]
    exact List.getElem?_set_ne (fun he => hj he.symm)

/-- C8 witness: the cell at `5` with a dirty throwing node (previous
cache `10`) and a clean sibling: the read returns the `"boom"` error,
the throwing node keeps cache `10` and stays dirty, and the sibling is
untouched. -/
theorem c8_exception_atomicity_witness :
    c8Cell.derived[0]? = some c8Throwing ∧
    c8Throwing.isDirty = true ∧
    c8Throwing.fn c8Cell.currentValue = .error (.message "boom") ∧
    (c8Cell.derivedValue 0).2 = .error (.message "boom") ∧
    (c8Cell.derivedValue 0).1.derived[0]? =
      some { c8Throwing with runs := c8Throwing.runs + 1 } ∧
    (c8Cell.derivedValue 0).1.derived[1]? = c8Cell.derived[1]? := by
  have h := c8_exception_atomicity c8Cell 0 c8Throwing (.message "boom") rfl rfl rfl
  exact ⟨rfl, rfl, rfl, h.1, h.2.1, h.2.2.2 1 (by decide)⟩

end ReactMeta
